import Mathlib

/-!
Verification of the receipt-generator server (GERADOR-RECIBOS).

The development shallowly embeds the JavaScript source:
* `interpretarPeriodo` and `sanitizarNomeArquivo` from `servidor-recibos.js`,
* the `POST /gerar-recibos` batch route of the same file (rendering,
  page/browser effects and the words-conversion library are modelled as
  oracles, faithful to the code's control flow),
* the `POST /api/funcionarios` create handler from `index.js` (the revision
  that maps the PostgreSQL unique-violation code 23505 to HTTP 409).

JavaScript strings are embedded as `List Char`; machine integers do not
occur (all arithmetic is on small naturals).  Fallible JavaScript code is
embedded with `Except`.
-/

namespace Recibos

/-- JavaScript whitespace (`\s`) restricted to the characters that can
realistically occur in the inputs: space, tab, LF, CR, FF, VT and NBSP. -/
def espacoJs (c : Char) : Bool :=
  c = ' ' || c = '\t' || c = '\n' || c = '\r' ||
  c = Char.ofNat 12 || c = Char.ofNat 11 || c = Char.ofNat 160

/-- Separator class of `texto.split(/[\/\-\s]+/)`. -/
def separadorJs (c : Char) : Bool :=
  c = '/' || c = '-' || espacoJs c

/-- `String.prototype.toLowerCase` on the ASCII and Latin-1 letters used by
the month tables and the test inputs. -/
def minusculaJs (c : Char) : Char :=
  if 'A' ≤ c ∧ c ≤ 'Z' then Char.ofNat (c.toNat + 32)
  else if Char.ofNat 0xC0 ≤ c ∧ c ≤ Char.ofNat 0xDE ∧ c ≠ Char.ofNat 0xD7 then
    Char.ofNat (c.toNat + 32)
  else c

/-- Uppercasing used by `.toUpperCase()` (ASCII and Latin-1). -/
def maiusculaJs (c : Char) : Char :=
  if 'a' ≤ c ∧ c ≤ 'z' then Char.ofNat (c.toNat - 32)
  else if Char.ofNat 0xE0 ≤ c ∧ c ≤ Char.ofNat 0xFE ∧ c ≠ Char.ofNat 0xF7 then
    Char.ofNat (c.toNat - 32)
  else c

/-- Combining-diacritic block `[̀-ͯ]` removed after NFD. -/
def marcaCombinante (c : Char) : Bool :=
  0x300 ≤ c.toNat && c.toNat ≤ 0x36F

/-- Base letter of a precomposed Latin-1 letter; models
`normalize('NFD')` followed by dropping the combining mark. -/
def letraBase (c : Char) : Char :=
  match c with
  | 'á' | 'à' | 'â' | 'ã' | 'ä' | 'å' => 'a'
  | 'é' | 'è' | 'ê' | 'ë' => 'e'
  | 'í' | 'ì' | 'î' | 'ï' => 'i'
  | 'ó' | 'ò' | 'ô' | 'õ' | 'ö' => 'o'
  | 'ú' | 'ù' | 'û' | 'ü' => 'u'
  | 'ç' => 'c'
  | 'ñ' => 'n'
  | 'ý' | 'ÿ' => 'y'
  | 'Á' | 'À' | 'Â' | 'Ã' | 'Ä' | 'Å' => 'A'
  | 'É' | 'È' | 'Ê' | 'Ë' => 'E'
  | 'Í' | 'Ì' | 'Î' | 'Ï' => 'I'
  | 'Ó' | 'Ò' | 'Ô' | 'Õ' | 'Ö' => 'O'
  | 'Ú' | 'Ù' | 'Û' | 'Ü' => 'U'
  | 'Ç' => 'C'
  | 'Ñ' => 'N'
  | 'Ý' => 'Y'
  | _ => c

/-- `texto.normalize('NFD').replace(/[̀-ͯ]/g, '')`. -/
def removeAcentos (xs : List Char) : List Char :=
  (xs.filter (fun c => !marcaCombinante c)).map letraBase

/-- `texto.trim()`. -/
def trimJs (xs : List Char) : List Char :=
  ((xs.dropWhile espacoJs).reverse.dropWhile espacoJs).reverse

/-- One pass of `texto.split(/[\/\-\s]+/).filter(Boolean)`: split on runs
of separators, never producing empty tokens.  `acc` is the reversed token
being accumulated. -/
def separaTokensAux : List Char → List Char → List (List Char)
  | [], acc => if acc = [] then [] else [acc.reverse]
  | c :: cs, acc =>
    if separadorJs c then
      if acc = [] then separaTokensAux cs []
      else acc.reverse :: separaTokensAux cs []
    else separaTokensAux cs (c :: acc)

/-- `texto.split(/[\/\-\s]+/).filter(Boolean)`. -/
def separaTokens (xs : List Char) : List (List Char) :=
  separaTokensAux xs []

/-- Decimal digit character. -/
def digito (d : Nat) : Char := Char.ofNat (48 + d % 10)

/-- Decimal digits of a natural number, most significant first
(`fuel`-driven; `fuel = n + 1` is always enough). -/
def digitosAux : Nat → Nat → List Char
  | 0, _ => []
  | f + 1, n =>
    if n < 10 then [digito n]
    else digitosAux f (n / 10) ++ [digito (n % 10)]

/-- JavaScript number-to-string conversion for a non-negative integer
(as in the template literals of the source). -/
def stringDeNat (n : Nat) : List Char := digitosAux (n + 1) n

/-- `String(n).padStart(2, '0')`. -/
def pad2 (n : Nat) : List Char :=
  if n < 10 then ['0', digito n] else stringDeNat n

/-- `parseInt(tok, 10)` on an all-digit token. -/
def parseDecimal (xs : List Char) : Nat :=
  xs.foldl (fun a c => a * 10 + (c.toNat - 48)) 0

/-- The `\d` class of the digit regexes. -/
def digitoJs (c : Char) : Bool :=
  c = '0' || c = '1' || c = '2' || c = '3' || c = '4' ||
  c = '5' || c = '6' || c = '7' || c = '8' || c = '9'

/-- `[a-zA-Z0-9]` (the regexes of the source are case-insensitive, so both
letter cases are preserved by the sanitizers). -/
def alfanumerico (c : Char) : Bool :=
  ('a' ≤ c && c ≤ 'z') || ('A' ≤ c && c ≤ 'Z') || ('0' ≤ c && c ≤ '9')

/-- `texto.replace(/[^a-z0-9]/gi, '-')`. -/
def sanitizaGi (xs : List Char) : List Char :=
  xs.map (fun c => if alfanumerico c then c else '-')

/-- `texto.replace(/[^a-z0-9\-]/gi, '-')` — the extra cleanup the batch
route applies to the interpreter's token. -/
def sanitizaGiHifen (xs : List Char) : List Char :=
  xs.map (fun c => if alfanumerico c || c = '-' then c else '-')

/-- The `mesesPorNome` table of `interpretarPeriodo`. -/
def mesPorNome (s : String) : Option Nat :=
  if s = "janeiro" then some 1
  else if s = "fevereiro" then some 2
  else if s = "março" then some 3
  else if s = "marco" then some 3
  else if s = "abril" then some 4
  else if s = "maio" then some 5
  else if s = "junho" then some 6
  else if s = "julho" then some 7
  else if s = "agosto" then some 8
  else if s = "setembro" then some 9
  else if s = "outubro" then some 10
  else if s = "novembro" then some 11
  else if s = "dezembro" then some 12
  else none

/-- The `abreviaturas` table of `interpretarPeriodo`. -/
def mesPorAbreviatura (s : String) : Option Nat :=
  if s = "jan" then some 1
  else if s = "fev" then some 2
  else if s = "mar" then some 3
  else if s = "abr" then some 4
  else if s = "mai" then some 5
  else if s = "jun" then some 6
  else if s = "jul" then some 7
  else if s = "ago" then some 8
  else if s = "set" then some 9
  else if s = "out" then some 10
  else if s = "nov" then some 11
  else if s = "dez" then some 12
  else none

/-- Month detection on `partes[0]`: lowercase, digit test `^\d{1,2}$`,
then the name table on the diacritic-stripped token, then the
three-letter abbreviation table. -/
def detectaMes (tok : List Char) : Option Nat :=
  let possivelMes := tok.map minusculaJs
  if 1 ≤ possivelMes.length ∧ possivelMes.length ≤ 2 ∧
      possivelMes.all digitoJs then
    some (parseDecimal possivelMes)
  else
    let semAcento := removeAcentos possivelMes
    match mesPorNome (String.mk semAcento) with
    | some m => some m
    | none => mesPorAbreviatura (String.mk (semAcento.take 3))

/-- Year detection on `partes[1]`: only `^\d{4}$` is accepted. -/
def detectaAno (tok : List Char) : Option Nat :=
  if tok.length = 4 ∧ tok.all digitoJs then some (parseDecimal tok)
  else none

/-- Gregorian leap-year rule. -/
def bissexto (ano : Nat) : Bool :=
  (ano % 4 = 0 && ano % 100 ≠ 0) || ano % 400 = 0

/-- Number of days in a month of a (Gregorian) year. -/
def diasNoMes (mes ano : Nat) : Nat :=
  if mes = 2 then (if bissexto ano then 29 else 28)
  else if mes = 4 ∨ mes = 6 ∨ mes = 9 ∨ mes = 11 then 30
  else 31

/-- `new Date(ano, mes, 0).getDate()`: the last day of 1-based month
`mes`; a two-digit year argument is interpreted by `Date` as `1900 + ano`. -/
def ultimoDiaJs (mes ano : Nat) : Nat :=
  diasNoMes mes (if ano ≤ 99 then 1900 + ano else ano)

/-- Modelled from the spec: "compute the last calendar day of that
month/year (accounting for leap years)" — the intended last day, stated
independently of the `Date` embedding above. -/
def ultimoDiaSpec (mes ano : Nat) : Nat :=
  if mes = 2 then (if (ano % 4 = 0 && ano % 100 ≠ 0) || ano % 400 = 0 then 29 else 28)
  else if mes = 4 ∨ mes = 6 ∨ mes = 9 ∨ mes = 11 then 30
  else 31

/-- Result record of `interpretarPeriodo`. -/
structure Periodo where
  mes : Option Nat
  ano : Option Nat
  textoFormatado : String
  stringSanitizada : String
deriving Repr, DecidableEq

/-- The fallback result (`mes`/`ano` unresolved): the trimmed input as the
display and its `[^a-z0-9]/gi → '-'` sanitization as the token. -/
def periodoFallback (texto : List Char) : Periodo :=
  { mes := none, ano := none,
    textoFormatado := String.mk texto,
    stringSanitizada := String.mk (sanitizaGi texto) }

/-- The resolved result: display `MM/YYYY (01/MM a DD/MM)` and token
`MM-YYYY` (string interpolation of the source, spelled with `++`). -/
def periodoResolvido (mes ano : Nat) : Periodo :=
  { mes := some mes, ano := some ano,
    textoFormatado := String.mk
      (pad2 mes ++ '/' :: stringDeNat ano ++ " (01/".data ++ pad2 mes ++
        " a ".data ++ pad2 (ultimoDiaJs mes ano) ++ '/' :: pad2 mes ++ [')']),
    stringSanitizada := String.mk (pad2 mes ++ '-' :: stringDeNat ano) }

/-- Detection phase: with at least two tokens, `partes[0]` is the month
candidate and `partes[1]` the year candidate; otherwise both stay
unresolved (`NaN`). -/
def interpretaDeteccao (texto : List Char) : Option Nat × Option Nat :=
  match separaTokens texto with
  | p0 :: p1 :: _ => (detectaMes p0, detectaAno p1)
  | _ => (none, none)

/-- The body of `interpretarPeriodo` after trimming: the resolved record
when a month in `1..12` and a year were both detected, the fallback
otherwise. -/
def interpretaNucleo (texto : List Char) : Periodo :=
  match interpretaDeteccao texto with
  | (some m, some a) =>
    if 1 ≤ m ∧ m ≤ 12 then periodoResolvido m a else periodoFallback texto
  | _ => periodoFallback texto

/-- `interpretarPeriodo` of `servidor-recibos.js` on string inputs (the
guard `!periodoEntrada` is emptiness for a string; non-string inputs are
treated separately by `interpretarPeriodoJs`).  The guarded branch
returns the raw input as display with its sanitization as token, which
for the empty string coincides with `periodoFallback s.data`. -/
def interpretarPeriodo (s : String) : Periodo :=
  if s = "" then periodoFallback s.data
  else interpretaNucleo (trimJs s.data)

/-- `sanitizarNomeArquivo`: strip diacritics, delete characters outside
`[a-zA-Z0-9\-_. ]`, trim, and collapse whitespace runs to `_`. -/
def caractereDeNomePermitido (c : Char) : Bool :=
  alfanumerico c || c = '-' || c = '_' || c = '.' || c = ' '

/-- Collapse runs of spaces into a single `_` (`.replace(/\s+/g, '_')`;
after the removal step the only whitespace left is `' '`). -/
def colapsaEspacosAux : List Char → Bool → List Char
  | [], _ => []
  | c :: cs, emCorrida =>
    if c = ' ' then
      if emCorrida then colapsaEspacosAux cs true
      else '_' :: colapsaEspacosAux cs true
    else c :: colapsaEspacosAux cs false

def colapsaEspacos (xs : List Char) : List Char :=
  colapsaEspacosAux xs false

def sanitizarNomeArquivo (texto : String) : String :=
  String.mk (colapsaEspacos (trimJs ((removeAcentos texto.data).filter caractereDeNomePermitido)))

/-! ### `interpretarPeriodo` on arbitrary JavaScript values

The guard of the source is
`if (!periodoEntrada || typeof periodoEntrada !== 'string')`, and the
guarded branch evaluates `periodoEntrada.replace(/[^a-z0-9]/gi, '-')` on
the original value.  `.replace` on `null`/`undefined`/a number throws a
`TypeError`, so the non-string path is embedded with `Except`. -/

/-- A JavaScript value as far as the `periodo` field is concerned. -/
inductive JsVal where
  | jsNull
  | jsUndefined
  | num (n : Int)
  | str (s : String)
  | bool (b : Bool)
deriving Repr, DecidableEq

/-- JavaScript truthiness (`!v` is the negation of this). -/
def verdadeiroJs : JsVal → Bool
  | .jsNull => false
  | .jsUndefined => false
  | .num n => n ≠ 0
  | .str s => s ≠ ""
  | .bool b => b

def tipoString : JsVal → Bool
  | .str _ => true
  | _ => false

/-- `v.replace(/[^a-z0-9]/gi, '-')`: defined on strings, a `TypeError`
on everything else. -/
def substituiSanitizaJs : JsVal → Except String String
  | .str s => .ok (String.mk (sanitizaGi s.data))
  | .jsNull => .error "TypeError: Cannot read properties of null (reading 'replace')"
  | .jsUndefined => .error "TypeError: Cannot read properties of undefined (reading 'replace')"
  | _ => .error "TypeError: periodoEntrada.replace is not a function"

/-- Result record of `interpretarPeriodo` with the raw value echoed in
`textoFormatado`, as the guarded branch of the source does. -/
structure PeriodoJs where
  mes : Option Nat
  ano : Option Nat
  textoFormatado : JsVal
  stringSanitizada : String
deriving Repr, DecidableEq

def dePeriodo (p : Periodo) : PeriodoJs :=
  { mes := p.mes, ano := p.ano, textoFormatado := .str p.textoFormatado,
    stringSanitizada := p.stringSanitizada }

/-- `interpretarPeriodo` of `servidor-recibos.js` on an arbitrary value:
the fallback branch for falsy or non-string inputs calls `.replace`
directly on the input value. -/
def interpretarPeriodoJs (v : JsVal) : Except String PeriodoJs :=
  if !verdadeiroJs v || !tipoString v then
    match substituiSanitizaJs v with
    | .ok token => .ok { mes := none, ano := none, textoFormatado := v, stringSanitizada := token }
    | .error e => .error e
  else
    match v with
    | .str s => .ok (dePeriodo (interpretarPeriodo s))
    | _ => .error "unreachable"

/-! ### The batch route `POST /gerar-recibos` (`servidor-recibos.js`)

Employees come from the store; the Puppeteer engine, the `Intl` currency
formatter, the `numero-por-extenso` library and the current date are
external collaborators, passed in as oracles.  `renderOk f = false`
models `pagina.pdf` (or `setContent`) throwing for employee `f`;
`extenso f = none` models both `porExtenso` attempts throwing, in which
case the source assigns `''`.  The observable effects are recorded as an
event list. -/

/-- Company constants `DADOS_EMPRESA`. -/
def empresaNome : String := "Aliança Consig"
def empresaCnpj : String := "50.113.116/0001-05"
def empresaCidade : String := "Brasília"

/-- A row of the `funcionarios` table as the batch route reads it. -/
structure Funcionario where
  nome_completo : String
  cpf : String
  salario_base : String
deriving Repr, DecidableEq

/-- Template placeholders (written with escaped braces). -/
def phNome : String := "\x7b\x7bNOME\x7d\x7d"
def phCpf : String := "\x7b\x7bCPF\x7d\x7d"
def phValorFormatado : String := "\x7b\x7bVALOR_FORMATADO\x7d\x7d"
def phValorPorExtenso : String := "\x7b\x7bVALOR_POR_EXTENSO\x7d\x7d"
def phPeriodo : String := "\x7b\x7bPERIODO\x7d\x7d"
def phDataAtual : String := "\x7b\x7bDATA_ATUAL\x7d\x7d"
def phEmpresaNome : String := "\x7b\x7bEMPRESA_NOME\x7d\x7d"
def phEmpresaCnpj : String := "\x7b\x7bEMPRESA_CNPJ\x7d\x7d"
def phCidade : String := "\x7b\x7bCIDADE\x7d\x7d"

/-- Replace every occurrence of `alvo` in the remaining text (the
behaviour of `String.prototype.replace` with a global literal pattern);
`fuel` is at least the length of the text. -/
def substituiAux : Nat → List Char → List Char → List Char → List Char
  | 0, _, _, resto => resto
  | f + 1, alvo, novo, xs =>
    match xs with
    | [] => []
    | c :: t =>
      if !alvo.isEmpty && alvo.isPrefixOf (c :: t) then
        novo ++ substituiAux f alvo novo (List.drop alvo.length (c :: t))
      else c :: substituiAux f alvo novo t

/-- `texto.replace(/alvo/g, novo)` for a literal `alvo`. -/
def substituiTudo (alvo novo texto : String) : String :=
  String.mk (substituiAux texto.data.length alvo.data novo.data texto.data)

/-- `valorPorExtenso`: the upper-cased words on success, `''` when the
conversion library failed (both attempts threw). -/
def campoPorExtenso (resultado : Option String) : String :=
  match resultado with
  | some palavras => String.mk (palavras.data.map maiusculaJs)
  | none => ""

/-- The nine placeholder substitutions of the loop body, in source order. -/
def montarConteudo (arquivoTemplate nome cpf valorFormatado valorPorExtenso
    periodoCompleto dataAtual : String) : String :=
  substituiTudo phCidade empresaCidade
    (substituiTudo phEmpresaCnpj empresaCnpj
      (substituiTudo phEmpresaNome empresaNome
        (substituiTudo phDataAtual dataAtual
          (substituiTudo phPeriodo periodoCompleto
            (substituiTudo phValorPorExtenso valorPorExtenso
              (substituiTudo phValorFormatado valorFormatado
                (substituiTudo phCpf cpf
                  (substituiTudo phNome nome arquivoTemplate))))))))

/-- `RECIBO-PAGAMENTO-<sanitized name>-<period token>.pdf`. -/
def arquivoRecibo (f : Funcionario) (token : String) : String :=
  "RECIBO-PAGAMENTO-" ++ sanitizarNomeArquivo f.nome_completo ++ "-" ++ token ++ ".pdf"

/-- One rendered document: its filename and the substituted HTML. -/
structure Recibo where
  arquivo : String
  conteudo : String
deriving Repr, DecidableEq

/-- The loop body's pure part for one employee. -/
def montarRecibo (arquivoTemplate dataAtual : String) (moeda : Funcionario → String)
    (extenso : Funcionario → Option String) (periodoCompleto token : String)
    (f : Funcionario) : Recibo :=
  { arquivo := arquivoRecibo f token,
    conteudo := montarConteudo arquivoTemplate f.nome_completo f.cpf (moeda f)
      (campoPorExtenso (extenso f)) periodoCompleto dataAtual }

/-- Observable effects of the batch route. -/
inductive Evento where
  | interpretaPeriodo
  | lancaNavegador
  | novaPagina
  | geraPdf (arquivo : String)
  | fechaPagina
  | fechaNavegador
deriving Repr, DecidableEq

def contaLancamentos : List Evento → Nat
  | [] => 0
  | .lancaNavegador :: r => contaLancamentos r + 1
  | _ :: r => contaLancamentos r

def contaFechamentosNavegador : List Evento → Nat
  | [] => 0
  | .fechaNavegador :: r => contaFechamentosNavegador r + 1
  | _ :: r => contaFechamentosNavegador r

def contaInterpretacoes : List Evento → Nat
  | [] => 0
  | .interpretaPeriodo :: r => contaInterpretacoes r + 1
  | _ :: r => contaInterpretacoes r

/-- HTTP responses of the routes. -/
inductive Resposta where
  | badRequest (erro : String)
  | notFound (erro : String)
  | serverError (erro : String)
  | okJson (mensagem : String) (arquivos : List String) (periodo : String)
deriving Repr, DecidableEq

/-- Outcome of one batch call. -/
structure ResultadoLote where
  eventos : List Evento
  recibos : List Recibo
  resposta : Resposta
deriving Repr, DecidableEq

/-- The `for (const funcionario of listaFuncionarios)` loop: for each
employee open a page, render, write the PDF and close the page; a render
failure aborts the loop (the exception propagates).  Returns the events,
the documents written, and whether the loop finished. -/
def processaFuncionarios (renderOk : Funcionario → Bool)
    (montar : Funcionario → Recibo) :
    List Funcionario → List Evento × List Recibo × Bool
  | [] => ([], [], true)
  | f :: resto =>
    if renderOk f then
      let r := processaFuncionarios renderOk montar resto
      (.novaPagina :: .geraPdf (montar f).arquivo :: .fechaPagina :: r.1,
       montar f :: r.2.1, r.2.2)
    else ([.novaPagina], [], false)

/-- The filename token the batch route derives from the interpreter:
`resultadoPeriodo.stringSanitizada.replace(/[^a-z0-9\-]/gi, '-')`. -/
def tokenDe (periodo : String) : String :=
  String.mk (sanitizaGiHifen (interpretarPeriodo periodo).stringSanitizada.data)

/-- `POST /gerar-recibos` of `servidor-recibos.js`.  In source order:
reject a falsy `periodo`; wipe and recreate the scratch directory (not
observable here); 404 on an empty employee list; read the template
(`templateOk = false` models `readFileSync` throwing, caught by the
outer `catch`); interpret the period once; derive the filename token;
launch the browser; run the loop inside `try`, with
`finally { await navegador.close() }`; answer 200 with the filenames and
the token, or 500 if the loop threw. -/
def gerarRecibos (renderOk : Funcionario → Bool) (arquivoTemplate : String)
    (templateOk : Bool) (moeda : Funcionario → String)
    (extenso : Funcionario → Option String) (dataAtual : String)
    (funcionarios : List Funcionario) (periodo : String) : ResultadoLote :=
  if periodo = "" then
    { eventos := [], recibos := [],
      resposta := .badRequest "O período de referência é obrigatório." }
  else if funcionarios.isEmpty then
    { eventos := [], recibos := [],
      resposta := .notFound "Nenhum funcionário encontrado." }
  else if !templateOk then
    { eventos := [], recibos := [],
      resposta := .serverError "Falha ao gerar os recibos." }
  else
    let periodoCompleto := (interpretarPeriodo periodo).textoFormatado
    let token := tokenDe periodo
    let montar := montarRecibo arquivoTemplate dataAtual moeda extenso periodoCompleto token
    let r := processaFuncionarios renderOk montar funcionarios
    { eventos := .interpretaPeriodo :: .lancaNavegador :: r.1 ++ [.fechaNavegador],
      recibos := r.2.1,
      resposta :=
        if r.2.2 then .okJson "Recibos gerados com sucesso." (r.2.1.map (·.arquivo)) token
        else .serverError "Falha ao gerar os recibos." }

/-! ### The create endpoint `POST /api/funcionarios` (`index.js`)

The store (Knex over PostgreSQL in production, per `knexfile.js`) is an
external collaborator: it enforces the unique constraint on `cpf` and
reports a violated insert with the error code `'23505'`, the code the
handler inspects. -/

/-- A stored row, with the surrogate id the store assigned. -/
structure FuncionarioDb where
  id : Nat
  nome_completo : String
  cpf : String
  salario_base : Rat
deriving DecidableEq

/-- The error object a failed Knex insert rejects with. -/
structure ErroDb where
  code : String
deriving Repr, DecidableEq

/-- `knex('funcionarios').insert(...)` under the table's unique
constraint on `cpf`: a duplicate insert rejects with code `'23505'`
(PostgreSQL unique violation), otherwise the row is appended with a
fresh id. -/
def insereFuncionario (tabela : List FuncionarioDb) (nome cpf : String)
    (salario : Rat) : Except ErroDb (List FuncionarioDb × Nat) :=
  if tabela.any (fun r => r.cpf = cpf) then .error { code := "23505" }
  else
    let novoId := (tabela.map (·.id)).foldl max 0 + 1
    .ok (tabela ++ [{ id := novoId, nome_completo := nome, cpf := cpf,
                      salario_base := salario }], novoId)

/-- Responses of the CRUD endpoints. -/
inductive RespostaApi where
  | badRequest (erro : String)
  | conflict (erro : String)
  | created (f : FuncionarioDb)
  | serverError (erro : String)
deriving DecidableEq

/-- `POST /api/funcionarios`: reject falsy fields with 400 (`!x` on a
string is emptiness, on a number it is `= 0`); insert; map the error
code `'23505'` to 409 "Este CPF já está cadastrado.", any other store
error to 500; on success re-select the new row and answer 201. -/
def postFuncionarios (tabela : List FuncionarioDb) (nome cpf : String)
    (salario : Rat) : List FuncionarioDb × RespostaApi :=
  if nome = "" ∨ cpf = "" ∨ salario = 0 then
    (tabela, .badRequest "Todos os campos são obrigatórios.")
  else
    match insereFuncionario tabela nome cpf salario with
    | .error e =>
      if e.code = "23505" then (tabela, .conflict "Este CPF já está cadastrado.")
      else (tabela, .serverError "Erro interno ao adicionar funcionário.")
    | .ok (tabela', novoId) =>
      match tabela'.find? (fun r => r.id = novoId) with
      | some f => (tabela', .created f)
      | none => (tabela', .serverError "Erro interno ao adicionar funcionário.")

/-- The uniqueness invariant the `cpf` unique constraint maintains. -/
def TabelaBemFormada (tabela : List FuncionarioDb) : Prop :=
  tabela.Pairwise (fun a b => a.cpf ≠ b.cpf)

/-- The property the glossary asks of a period token: only lowercase
letters, digits and hyphens. -/
def tokenMinusculo (s : String) : Bool :=
  s.data.all (fun c => c.isLower || c.isDigit || c = '-')

/-- Letters of either case, digits and hyphens. -/
def tokenAlfanumericoHifen (s : String) : Bool :=
  s.data.all (fun c => alfanumerico c || c = '-')

/-- Substring containment (used for the filename claims). -/
def Contem (parte s : String) : Prop :=
  ∃ a b, s = a ++ parte ++ b

/-! ## Helper lemmas -/

theorem string_append_assoc (a b c : String) : a ++ b ++ c = a ++ (b ++ c) := by
  cases a with
  | mk la =>
    cases b with
    | mk lb =>
      cases c with
      | mk lc =>
        show String.mk (la ++ lb ++ lc) = String.mk (la ++ (lb ++ lc))
        rw [List.append_assoc]

theorem data_mk (l : List Char) : (String.mk l).data = l := rfl

theorem sanitizaGi_alfanumerico (xs : List Char) :
    (sanitizaGi xs).all (fun c => alfanumerico c || c = '-') = true := by
  induction xs with
  | nil => rfl
  | cons c t ih =>
    simp only [sanitizaGi, List.map_cons, List.all_cons] at *
    by_cases h : alfanumerico c <;> simp [h, ih]

theorem sanitizaGiHifen_alfanumerico (xs : List Char) :
    (sanitizaGiHifen xs).all (fun c => alfanumerico c || c = '-') = true := by
  induction xs with
  | nil => rfl
  | cons c t ih =>
    simp only [sanitizaGiHifen, List.map_cons, List.all_cons] at *
    by_cases h : alfanumerico c || c = '-' <;> simp_all

theorem digito_alfanumerico (d : Nat) : alfanumerico (digito d) = true := by
  unfold digito
  have h : d % 10 ≤ 9 := by omega
  set k := d % 10 with hk
  interval_cases k <;> rfl

theorem digitosAux_alfanumerico (f n : Nat) :
    (digitosAux f n).all (fun c => alfanumerico c || c = '-') = true := by
  induction f generalizing n with
  | zero => rfl
  | succ f ih =>
    unfold digitosAux
    by_cases h : n < 10
    · simp [h, digito_alfanumerico]
    · simp [h, ih, digito_alfanumerico]

theorem pad2_alfanumerico (n : Nat) :
    (pad2 n).all (fun c => alfanumerico c || c = '-') = true := by
  unfold pad2
  by_cases h : n < 10
  · simp [h, digito_alfanumerico]; rfl
  · simp [h, stringDeNat, digitosAux_alfanumerico]

theorem token_fallback_alfanumerico (xs : List Char) :
    tokenAlfanumericoHifen (periodoFallback xs).stringSanitizada = true :=
  sanitizaGi_alfanumerico xs

theorem token_resolvido_alfanumerico (m a : Nat) :
    tokenAlfanumericoHifen (periodoResolvido m a).stringSanitizada = true := by
  show (pad2 m ++ '-' :: stringDeNat a).all (fun c => alfanumerico c || c = '-') = true
  simp [List.all_append, List.all_cons, pad2_alfanumerico, stringDeNat,
    digitosAux_alfanumerico]

/-- Every `interpretarPeriodo` result is either the fallback on the
trimmed input or a resolved month/year record. -/
theorem interpretaNucleo_formas (texto : List Char) :
    interpretaNucleo texto = periodoFallback texto ∨
    ∃ m a, interpretaNucleo texto = periodoResolvido m a := by
  unfold interpretaNucleo
  rcases h : interpretaDeteccao texto with ⟨mq, aq⟩
  rcases mq with _ | m
  · exact Or.inl rfl
  · rcases aq with _ | a
    · exact Or.inl rfl
    · by_cases hm : 1 ≤ m ∧ m ≤ 12
      · refine Or.inr ⟨m, a, ?_⟩
        show (if 1 ≤ m ∧ m ≤ 12 then periodoResolvido m a else periodoFallback texto) = _
        rw [if_pos hm]
      · refine Or.inl ?_
        show (if 1 ≤ m ∧ m ≤ 12 then periodoResolvido m a else periodoFallback texto) = _
        rw [if_neg hm]

theorem interpretarPeriodo_formas (s : String) :
    (∃ xs, interpretarPeriodo s = periodoFallback xs) ∨
    ∃ m a, interpretarPeriodo s = periodoResolvido m a := by
  unfold interpretarPeriodo
  by_cases h : s = ""
  · exact Or.inl ⟨s.data, by rw [if_pos h]⟩
  · rw [if_neg h]
    rcases interpretaNucleo_formas (trimJs s.data) with h' | ⟨m, a, h'⟩
    · exact Or.inl ⟨trimJs s.data, h'⟩
    · exact Or.inr ⟨m, a, h'⟩

theorem contaLancamentos_append (xs ys : List Evento) :
    contaLancamentos (xs ++ ys) = contaLancamentos xs + contaLancamentos ys := by
  induction xs with
  | nil => simp [contaLancamentos]
  | cons e r ih =>
    cases e <;> simp [contaLancamentos, ih]
    omega

theorem contaFechamentosNavegador_append (xs ys : List Evento) :
    contaFechamentosNavegador (xs ++ ys) =
      contaFechamentosNavegador xs + contaFechamentosNavegador ys := by
  induction xs with
  | nil => simp [contaFechamentosNavegador]
  | cons e r ih =>
    cases e <;> simp [contaFechamentosNavegador, ih]
    omega

theorem contaInterpretacoes_append (xs ys : List Evento) :
    contaInterpretacoes (xs ++ ys) =
      contaInterpretacoes xs + contaInterpretacoes ys := by
  induction xs with
  | nil => simp [contaInterpretacoes]
  | cons e r ih =>
    cases e <;> simp [contaInterpretacoes, ih]
    omega

/-- The rendering loop only opens and closes pages: it never launches or
closes the browser, and never invokes the period interpreter. -/
theorem processa_eventos_neutros (renderOk : Funcionario → Bool)
    (montar : Funcionario → Recibo) (fs : List Funcionario) :
    contaLancamentos (processaFuncionarios renderOk montar fs).1 = 0 ∧
    contaFechamentosNavegador (processaFuncionarios renderOk montar fs).1 = 0 ∧
    contaInterpretacoes (processaFuncionarios renderOk montar fs).1 = 0 := by
  induction fs with
  | nil => exact ⟨rfl, rfl, rfl⟩
  | cons f resto ih =>
    by_cases hr : renderOk f
    · simpa [processaFuncionarios, hr, contaLancamentos,
        contaFechamentosNavegador, contaInterpretacoes] using ih
    · simp [processaFuncionarios, hr, contaLancamentos,
        contaFechamentosNavegador, contaInterpretacoes]

/-- When every render succeeds the loop returns one document per
employee, in store order, and reports success. -/
theorem processa_sucesso (renderOk : Funcionario → Bool)
    (montar : Funcionario → Recibo) (fs : List Funcionario)
    (h : ∀ f ∈ fs, renderOk f = true) :
    (processaFuncionarios renderOk montar fs).2 = (fs.map montar, true) := by
  induction fs with
  | nil => rfl
  | cons f resto ih =>
    have hf : renderOk f = true := h f (List.mem_cons_self f resto)
    have hrest := ih (fun g hg => h g (List.mem_cons_of_mem f hg))
    simp [processaFuncionarios, hf, hrest]

theorem contem_nome_no_arquivo (f : Funcionario) (token : String) :
    Contem (sanitizarNomeArquivo f.nome_completo) (arquivoRecibo f token) :=
  ⟨"RECIBO-PAGAMENTO-", "-" ++ token ++ ".pdf", by
    simp only [arquivoRecibo, string_append_assoc]⟩

theorem contem_token_no_arquivo (f : Funcionario) (token : String) :
    Contem token (arquivoRecibo f token) :=
  ⟨"RECIBO-PAGAMENTO-" ++ sanitizarNomeArquivo f.nome_completo ++ "-", ".pdf", by
    simp only [arquivoRecibo, string_append_assoc]⟩

end Recibos

/-! ## Claims -/

namespace Recibos

/-- C2: the claim says a two-digit second token is parsed as a year in
the 2000s, so that `interpret("set/25")` yields month 9 and year 2025.
The year test of the source is `/^\d{4}$/` only: on `"set/25"` the year
stays unresolved and the interpreter falls back. -/
theorem c2_contraexemplo_ano_dois_digitos :
    ¬ ((interpretarPeriodo "set/25").mes = some 9 ∧
       (interpretarPeriodo "set/25").ano = some 2025) := by
  decide

/-- C2 (amended): only a second token of exactly four digits is parsed as
the year; a two-digit year token is not recognized, so
`interpret("set/25")` yields month and year absent with display
`"set/25"` and token `"set-25"`, while `interpret("set/2025")` yields
month 9 and year 2025. -/
theorem c2_emendado_ano_quatro_digitos :
    interpretarPeriodo "set/25" =
      { mes := none, ano := none, textoFormatado := "set/25",
        stringSanitizada := "set-25" } ∧
    interpretarPeriodo "set/2025" =
      { mes := some 9, ano := some 2025,
        textoFormatado := "09/2025 (01/09 a 30/09)",
        stringSanitizada := "09-2025" } := by
  exact ⟨by decide, by decide⟩

/-- C5: the claim says the interpreter does not throw on empty, null or
non-string input.  The guarded branch of `interpretarPeriodo`
(`servidor-recibos.js` line 68) calls `.replace` on the original value,
which throws a `TypeError` for `null` and for numbers; only the empty
string reaches the fallback safely. -/
theorem c5_entrada_nao_string_lanca_typeerror :
    interpretarPeriodoJs JsVal.jsNull =
      Except.error "TypeError: Cannot read properties of null (reading 'replace')" ∧
    interpretarPeriodoJs (JsVal.num 5) =
      Except.error "TypeError: periodoEntrada.replace is not a function" ∧
    interpretarPeriodoJs (JsVal.str "") =
      Except.ok { mes := none, ano := none, textoFormatado := JsVal.str "",
                  stringSanitizada := "" } := by
  exact ⟨rfl, rfl, rfl⟩

/-- C8: the interpreter strips diacritics before matching month names, so
`interpret("março/2025")` and `interpret("marco/2025")` return identical
records (month, year, display and token all equal). -/
theorem c8_diacritico_insensivel :
    interpretarPeriodo "março/2025" = interpretarPeriodo "marco/2025" ∧
    (interpretarPeriodo "março/2025").mes = some 3 := by
  exact ⟨by decide, by decide⟩

/-- C9: the claim says every period token is lowercase-only.  The
sanitizing regexes `[^a-z0-9]/gi` and `[^a-z0-9\-]/gi` are
case-insensitive and keep uppercase letters: the fallback token for
`"SET/25"` is `"SET-25"`, and the batch route's extra cleanup keeps it
uppercase too. -/
theorem c9_contraexemplo_token_maiusculo :
    tokenMinusculo (interpretarPeriodo "SET/25").stringSanitizada = false ∧
    tokenMinusculo (tokenDe "SET/25") = false := by
  exact ⟨by decide, by decide⟩

/-- C9 (amended): for every input string, the interpreter's token — and
the token the batch route echoes after its extra cleanup — consists only
of letters (of either case: the sanitizing regexes are case-insensitive
and preserve uppercase), digits and hyphens. -/
theorem c9_emendado_token_alfanumerico (s : String) :
    tokenAlfanumericoHifen (interpretarPeriodo s).stringSanitizada = true ∧
    tokenAlfanumericoHifen (tokenDe s) = true := by
  constructor
  · rcases interpretarPeriodo_formas s with ⟨xs, h⟩ | ⟨m, a, h⟩
    · rw [h]; exact token_fallback_alfanumerico xs
    · rw [h]; exact token_resolvido_alfanumerico m a
  · exact sanitizaGiHifen_alfanumerico _

/-- C3: in every execution of the batch route — for every render oracle,
including mid-loop render failures, and whether or not the template read
succeeds — the number of browser launches equals the number of browser
closes in the emitted event trace: the `finally` block releases the
rendering-engine session before the call returns. -/
theorem c3_navegador_sempre_fechado (renderOk : Funcionario → Bool)
    (arquivoTemplate : String) (templateOk : Bool) (moeda : Funcionario → String)
    (extenso : Funcionario → Option String) (dataAtual : String)
    (funcionarios : List Funcionario) (periodo : String) :
    contaLancamentos (gerarRecibos renderOk arquivoTemplate templateOk moeda
      extenso dataAtual funcionarios periodo).eventos =
    contaFechamentosNavegador (gerarRecibos renderOk arquivoTemplate templateOk
      moeda extenso dataAtual funcionarios periodo).eventos := by
  unfold gerarRecibos
  by_cases h1 : periodo = ""
  · rw [if_pos h1]
    rfl
  · rw [if_neg h1]
    by_cases h2 : funcionarios.isEmpty
    · simp [h2, contaLancamentos, contaFechamentosNavegador]
    · simp only [h2, Bool.false_eq_true, if_false]
      by_cases h3 : templateOk
      · simp only [h3, Bool.not_true, Bool.false_eq_true, if_false]
        have hneutro := processa_eventos_neutros renderOk
          (montarRecibo arquivoTemplate dataAtual moeda extenso
            (interpretarPeriodo periodo).textoFormatado (tokenDe periodo))
          funcionarios
        simp [contaLancamentos, contaFechamentosNavegador,
          contaLancamentos_append, contaFechamentosNavegador_append,
          hneutro.1, hneutro.2.1]
      · simp [h3, contaLancamentos, contaFechamentosNavegador]

theorem isEmpty_falso_de_nao_vazio (funcionarios : List Funcionario)
    (hfun : funcionarios ≠ []) : funcionarios.isEmpty = false := by
  cases funcionarios with
  | nil => exact absurd rfl hfun
  | cons f resto => rfl

/-- On a successful batch the rendered documents are exactly the loop
body applied to each employee, in store order. -/
theorem gerarRecibos_recibos_sucesso (renderOk : Funcionario → Bool)
    (arquivoTemplate : String) (moeda : Funcionario → String)
    (extenso : Funcionario → Option String) (dataAtual : String)
    (funcionarios : List Funcionario) (periodo : String)
    (hper : periodo ≠ "") (hfun : funcionarios ≠ [])
    (hren : ∀ f ∈ funcionarios, renderOk f = true) :
    (gerarRecibos renderOk arquivoTemplate true moeda extenso dataAtual
        funcionarios periodo).recibos =
      funcionarios.map (montarRecibo arquivoTemplate dataAtual moeda extenso
        (interpretarPeriodo periodo).textoFormatado (tokenDe periodo)) := by
  have hemp := isEmpty_falso_de_nao_vazio funcionarios hfun
  have hproc := processa_sucesso renderOk
    (montarRecibo arquivoTemplate dataAtual moeda extenso
      (interpretarPeriodo periodo).textoFormatado (tokenDe periodo))
    funcionarios hren
  simp only [gerarRecibos, if_neg hper, hemp, Bool.false_eq_true, if_false,
    Bool.not_true]
  exact congrArg Prod.fst hproc

/-- On a successful batch the response is 200 with one filename per
employee and the shared token. -/
theorem gerarRecibos_resposta_sucesso (renderOk : Funcionario → Bool)
    (arquivoTemplate : String) (moeda : Funcionario → String)
    (extenso : Funcionario → Option String) (dataAtual : String)
    (funcionarios : List Funcionario) (periodo : String)
    (hper : periodo ≠ "") (hfun : funcionarios ≠ [])
    (hren : ∀ f ∈ funcionarios, renderOk f = true) :
    (gerarRecibos renderOk arquivoTemplate true moeda extenso dataAtual
        funcionarios periodo).resposta =
      Resposta.okJson "Recibos gerados com sucesso."
        (funcionarios.map (fun f => arquivoRecibo f (tokenDe periodo)))
        (tokenDe periodo) := by
  have hemp := isEmpty_falso_de_nao_vazio funcionarios hfun
  have hproc := processa_sucesso renderOk
    (montarRecibo arquivoTemplate dataAtual moeda extenso
      (interpretarPeriodo periodo).textoFormatado (tokenDe periodo))
    funcionarios hren
  simp only [gerarRecibos, if_neg hper, hemp, Bool.false_eq_true, if_false,
    Bool.not_true]
  rw [show ((processaFuncionarios renderOk _ funcionarios).2.1) =
      funcionarios.map (montarRecibo arquivoTemplate dataAtual moeda extenso
        (interpretarPeriodo periodo).textoFormatado (tokenDe periodo)) from
    congrArg Prod.fst hproc]
  rw [show ((processaFuncionarios renderOk _ funcionarios).2.2) = true from
    congrArg Prod.snd hproc]
  simp [List.map_map]
  intro a _
  rfl

/-- C1: a batch request with a non-empty period and at least one stored
employee (all renders succeeding) answers 200 with exactly one filename
per employee, renders exactly one document per employee, runs the period
interpreter exactly once, and every filename contains the sanitized
employee name and the one token shared by the whole batch. -/
theorem c1_lote_produz_n_recibos (renderOk : Funcionario → Bool)
    (arquivoTemplate : String) (moeda : Funcionario → String)
    (extenso : Funcionario → Option String) (dataAtual : String)
    (funcionarios : List Funcionario) (periodo : String)
    (hper : periodo ≠ "") (hfun : funcionarios ≠ [])
    (hren : ∀ f ∈ funcionarios, renderOk f = true) :
    (gerarRecibos renderOk arquivoTemplate true moeda extenso dataAtual
        funcionarios periodo).resposta =
      Resposta.okJson "Recibos gerados com sucesso."
        (funcionarios.map (fun f => arquivoRecibo f (tokenDe periodo)))
        (tokenDe periodo) ∧
    (gerarRecibos renderOk arquivoTemplate true moeda extenso dataAtual
        funcionarios periodo).recibos.length = funcionarios.length ∧
    contaInterpretacoes (gerarRecibos renderOk arquivoTemplate true moeda
        extenso dataAtual funcionarios periodo).eventos = 1 ∧
    ∀ f ∈ funcionarios,
      Contem (sanitizarNomeArquivo f.nome_completo) (arquivoRecibo f (tokenDe periodo)) ∧
      Contem (tokenDe periodo) (arquivoRecibo f (tokenDe periodo)) := by
  have hemp := isEmpty_falso_de_nao_vazio funcionarios hfun
  have hneutro := processa_eventos_neutros renderOk
    (montarRecibo arquivoTemplate dataAtual moeda extenso
      (interpretarPeriodo periodo).textoFormatado (tokenDe periodo))
    funcionarios
  refine ⟨gerarRecibos_resposta_sucesso renderOk arquivoTemplate moeda extenso
    dataAtual funcionarios periodo hper hfun hren, ?_, ?_, ?_⟩
  · rw [gerarRecibos_recibos_sucesso renderOk arquivoTemplate moeda extenso
      dataAtual funcionarios periodo hper hfun hren]
    simp
  · simp only [gerarRecibos, if_neg hper, hemp, Bool.false_eq_true, if_false,
      Bool.not_true]
    simp [contaInterpretacoes, contaInterpretacoes_append, hneutro.2.2]
  · intro f _
    exact ⟨contem_nome_no_arquivo f (tokenDe periodo),
      contem_token_no_arquivo f (tokenDe periodo)⟩

/-- Witness for C1 at a concrete batch: two employees, period
`"setembro/2025"` (shared token `09-2025`), all renders succeeding. -/
theorem c1_testemunha :
    (gerarRecibos (fun _ => true) "tpl" true (fun _ => "R$ 1.000,00")
        (fun _ => some "mil reais") "01 de outubro de 2025"
        [{ nome_completo := "João da Silva", cpf := "111.111.111-11", salario_base := "1000" },
         { nome_completo := "Maria José", cpf := "222.222.222-22", salario_base := "2000" }]
        "setembro/2025").resposta =
      Resposta.okJson "Recibos gerados com sucesso."
        (([{ nome_completo := "João da Silva", cpf := "111.111.111-11", salario_base := "1000" },
           { nome_completo := "Maria José", cpf := "222.222.222-22", salario_base := "2000" }] :
            List Funcionario).map (fun f => arquivoRecibo f (tokenDe "setembro/2025")))
        (tokenDe "setembro/2025") ∧
    (gerarRecibos (fun _ => true) "tpl" true (fun _ => "R$ 1.000,00")
        (fun _ => some "mil reais") "01 de outubro de 2025"
        [{ nome_completo := "João da Silva", cpf := "111.111.111-11", salario_base := "1000" },
         { nome_completo := "Maria José", cpf := "222.222.222-22", salario_base := "2000" }]
        "setembro/2025").recibos.length = 2 ∧
    contaInterpretacoes (gerarRecibos (fun _ => true) "tpl" true (fun _ => "R$ 1.000,00")
        (fun _ => some "mil reais") "01 de outubro de 2025"
        [{ nome_completo := "João da Silva", cpf := "111.111.111-11", salario_base := "1000" },
         { nome_completo := "Maria José", cpf := "222.222.222-22", salario_base := "2000" }]
        "setembro/2025").eventos = 1 ∧
    ∀ f ∈ ([{ nome_completo := "João da Silva", cpf := "111.111.111-11", salario_base := "1000" },
            { nome_completo := "Maria José", cpf := "222.222.222-22", salario_base := "2000" }] :
            List Funcionario),
      Contem (sanitizarNomeArquivo f.nome_completo) (arquivoRecibo f (tokenDe "setembro/2025")) ∧
      Contem (tokenDe "setembro/2025") (arquivoRecibo f (tokenDe "setembro/2025")) :=
  c1_lote_produz_n_recibos (fun _ => true) "tpl" (fun _ => "R$ 1.000,00")
    (fun _ => some "mil reais") "01 de outubro de 2025" _ "setembro/2025"
    (by decide) (by decide) (fun _ _ => rfl)

/-- C7: when the amount-in-words conversion fails for an employee, the
batch still succeeds: that employee's document is rendered with an empty
words field, and the response still lists one file per employee. -/
theorem c7_extenso_falha_nao_aborta (renderOk : Funcionario → Bool)
    (arquivoTemplate : String) (moeda : Funcionario → String)
    (extenso : Funcionario → Option String) (dataAtual : String)
    (funcionarios : List Funcionario) (periodo : String) (f : Funcionario)
    (hper : periodo ≠ "") (hf : f ∈ funcionarios)
    (hren : ∀ g ∈ funcionarios, renderOk g = true)
    (hext : extenso f = none) :
    (gerarRecibos renderOk arquivoTemplate true moeda extenso dataAtual
        funcionarios periodo).resposta =
      Resposta.okJson "Recibos gerados com sucesso."
        (funcionarios.map (fun g => arquivoRecibo g (tokenDe periodo)))
        (tokenDe periodo) ∧
    ({ arquivo := arquivoRecibo f (tokenDe periodo),
       conteudo := montarConteudo arquivoTemplate f.nome_completo f.cpf (moeda f)
         "" (interpretarPeriodo periodo).textoFormatado dataAtual } : Recibo) ∈
      (gerarRecibos renderOk arquivoTemplate true moeda extenso dataAtual
        funcionarios periodo).recibos := by
  have hfun : funcionarios ≠ [] := by
    intro h
    rw [h] at hf
    exact absurd hf (List.not_mem_nil f)
  refine ⟨gerarRecibos_resposta_sucesso renderOk arquivoTemplate moeda extenso
    dataAtual funcionarios periodo hper hfun hren, ?_⟩
  rw [gerarRecibos_recibos_sucesso renderOk arquivoTemplate moeda extenso
    dataAtual funcionarios periodo hper hfun hren]
  have hrec : montarRecibo arquivoTemplate dataAtual moeda extenso
      (interpretarPeriodo periodo).textoFormatado (tokenDe periodo) f =
      { arquivo := arquivoRecibo f (tokenDe periodo),
        conteudo := montarConteudo arquivoTemplate f.nome_completo f.cpf (moeda f)
          "" (interpretarPeriodo periodo).textoFormatado dataAtual } := by
    unfold montarRecibo
    rw [hext]
    rfl
  exact hrec ▸ List.mem_map_of_mem _ hf

/-- Witness for C7: one employee whose words conversion fails; the batch
still answers 200 and renders their document with `''` substituted for
the words placeholder. -/
theorem c7_testemunha :
    (gerarRecibos (fun _ => true) "X \x7b\x7bVALOR_POR_EXTENSO\x7d\x7d Y" true
        (fun _ => "R$ 1.000,00") (fun _ => none) "01 de outubro de 2025"
        [{ nome_completo := "Ana", cpf := "333", salario_base := "1000" }]
        "09/2025").resposta =
      Resposta.okJson "Recibos gerados com sucesso."
        (([{ nome_completo := "Ana", cpf := "333", salario_base := "1000" }] :
            List Funcionario).map (fun g => arquivoRecibo g (tokenDe "09/2025")))
        (tokenDe "09/2025") ∧
    ({ arquivo := arquivoRecibo { nome_completo := "Ana", cpf := "333", salario_base := "1000" }
         (tokenDe "09/2025"),
       conteudo := montarConteudo "X \x7b\x7bVALOR_POR_EXTENSO\x7d\x7d Y" "Ana" "333"
         "R$ 1.000,00" "" (interpretarPeriodo "09/2025").textoFormatado
         "01 de outubro de 2025" } : Recibo) ∈
      (gerarRecibos (fun _ => true) "X \x7b\x7bVALOR_POR_EXTENSO\x7d\x7d Y" true
        (fun _ => "R$ 1.000,00") (fun _ => none) "01 de outubro de 2025"
        [{ nome_completo := "Ana", cpf := "333", salario_base := "1000" }]
        "09/2025").recibos :=
  c7_extenso_falha_nao_aborta (fun _ => true) "X \x7b\x7bVALOR_POR_EXTENSO\x7d\x7d Y"
    (fun _ => "R$ 1.000,00") (fun _ => none) "01 de outubro de 2025"
    [{ nome_completo := "Ana", cpf := "333", salario_base := "1000" }] "09/2025"
    { nome_completo := "Ana", cpf := "333", salario_base := "1000" }
    (by decide) (List.mem_cons_self _ _) (fun _ _ => rfl) rfl

/-- With pairwise-distinct tax ids, a tax id that occurs in the table
occurs in exactly one row. -/
theorem filtro_cpf_unico (cpf : String) (tabela : List FuncionarioDb)
    (hw : TabelaBemFormada tabela)
    (hdup : tabela.any (fun r => r.cpf = cpf) = true) :
    (tabela.filter (fun r => r.cpf = cpf)).length = 1 := by
  induction tabela with
  | nil => simp at hdup
  | cons r t ih =>
    rw [TabelaBemFormada, List.pairwise_cons] at hw
    by_cases hr : r.cpf = cpf
    · have hnenhum : ∀ b ∈ t, ¬(b.cpf = cpf) := by
        intro b hb h
        exact hw.1 b hb (hr.trans h.symm)
      have hfiltro : t.filter (fun r => r.cpf = cpf) = [] := by
        rw [List.filter_eq_nil_iff]
        intro b hb
        simpa using hnenhum b hb
      simp [List.filter_cons, hr, hfiltro]
    · have hdup' : t.any (fun r => r.cpf = cpf) = true := by
        simpa [hr] using hdup
      have := ih hw.2 hdup'
      simpa [List.filter_cons, hr] using this

/-- C4: a create request whose tax id is already stored (other fields
truthy) answers the distinct 409 "already exists" condition — the
handler maps the store's unique-violation code 23505 to it — the table
is unchanged, and it still holds exactly one row with that tax id. -/
theorem c4_cpf_duplicado_conflito (tabela : List FuncionarioDb)
    (nome cpf : String) (salario : Rat)
    (hw : TabelaBemFormada tabela)
    (hdup : tabela.any (fun r => r.cpf = cpf) = true)
    (hn : nome ≠ "") (hc : cpf ≠ "") (hs : salario ≠ 0) :
    postFuncionarios tabela nome cpf salario =
      (tabela, RespostaApi.conflict "Este CPF já está cadastrado.") ∧
    (tabela.filter (fun r => r.cpf = cpf)).length = 1 := by
  constructor
  · unfold postFuncionarios insereFuncionario
    rw [if_neg (by push_neg; exact ⟨hn, hc, hs⟩), if_pos hdup]
    rfl
  · exact filtro_cpf_unico cpf tabela hw hdup

/-- Witness for C4: inserting a second employee with the stored tax id
`"111"` answers 409 and leaves the single existing row in place. -/
theorem c4_testemunha :
    postFuncionarios
        [{ id := 1, nome_completo := "Ana", cpf := "111", salario_base := 1000 }]
        "Bia" "111" 2000 =
      ([{ id := 1, nome_completo := "Ana", cpf := "111", salario_base := 1000 }],
        RespostaApi.conflict "Este CPF já está cadastrado.") ∧
    (([{ id := 1, nome_completo := "Ana", cpf := "111", salario_base := 1000 }] :
        List FuncionarioDb).filter (fun r => r.cpf = "111")).length = 1 :=
  c4_cpf_duplicado_conflito
    [{ id := 1, nome_completo := "Ana", cpf := "111", salario_base := 1000 }]
    "Bia" "111" 2000 (List.pairwise_singleton _ _) (by simp)
    (by decide) (by decide) (by norm_num)

/-- C10: a create request with non-empty name and tax id but base salary
`0` is rejected by the falsy-field guard with the missing-fields 400 and
inserts nothing — the guard cannot tell a zero salary from an absent
one. -/
theorem c10_salario_zero_rejeitado (tabela : List FuncionarioDb)
    (nome cpf : String) (_hn : nome ≠ "") (_hc : cpf ≠ "") :
    postFuncionarios tabela nome cpf 0 =
      (tabela, RespostaApi.badRequest "Todos os campos são obrigatórios.") := by
  unfold postFuncionarios
  rw [if_pos (Or.inr (Or.inr rfl))]

/-- Witness for C10: a valid-looking employee with salary `0` is refused
with 400 and the table stays unchanged. -/
theorem c10_testemunha :
    postFuncionarios
        [{ id := 1, nome_completo := "Ana", cpf := "111", salario_base := 1000 }]
        "Bia" "222" 0 =
      ([{ id := 1, nome_completo := "Ana", cpf := "111", salario_base := 1000 }],
        RespostaApi.badRequest "Todos os campos são obrigatórios.") :=
  c10_salario_zero_rejeitado
    [{ id := 1, nome_completo := "Ana", cpf := "111", salario_base := 1000 }]
    "Bia" "222" (by decide) (by decide)

theorem espaco_falso_de_separador_falso (c : Char)
    (h : separadorJs c = false) : espacoJs c = false := by
  cases hesp : espacoJs c with
  | false => rfl
  | true => simp [separadorJs, hesp] at h

theorem digitoJs_casos (c : Char) (h : digitoJs c = true) :
    c = '0' ∨ c = '1' ∨ c = '2' ∨ c = '3' ∨ c = '4' ∨
    c = '5' ∨ c = '6' ∨ c = '7' ∨ c = '8' ∨ c = '9' := by
  have h' := h
  simp only [digitoJs, Bool.or_eq_true, decide_eq_true_eq] at h'
  tauto

theorem separador_falso_de_digito (c : Char) (h : digitoJs c = true) :
    separadorJs c = false := by
  rcases digitoJs_casos c h with h | h | h | h | h | h | h | h | h | h <;>
    subst h <;> decide

theorem dropWhile_sem_ocorrencia (p : Char → Bool) (xs : List Char)
    (h : ∀ c ∈ xs, p c = false) : xs.dropWhile p = xs := by
  cases xs with
  | nil => rfl
  | cons c t => simp [List.dropWhile_cons, h c (List.mem_cons_self c t)]

theorem trim_sem_espaco (xs : List Char)
    (h : ∀ c ∈ xs, espacoJs c = false) : trimJs xs = xs := by
  unfold trimJs
  rw [dropWhile_sem_ocorrencia espacoJs xs h]
  rw [dropWhile_sem_ocorrencia espacoJs xs.reverse
    (fun c hc => h c (List.mem_reverse.mp hc))]
  exact List.reverse_reverse xs

theorem separaTokensAux_sem_separador (xs : List Char)
    (h : ∀ c ∈ xs, separadorJs c = false) (acc rest : List Char) :
    separaTokensAux (xs ++ rest) acc = separaTokensAux rest (xs.reverse ++ acc) := by
  induction xs generalizing acc with
  | nil => simp
  | cons c t ih =>
    have hc : separadorJs c = false := h c (List.mem_cons_self c t)
    have ht : ∀ d ∈ t, separadorJs d = false :=
      fun d hd => h d (List.mem_cons_of_mem c hd)
    simp only [List.cons_append, separaTokensAux, hc, Bool.false_eq_true,
      if_false, List.reverse_cons, List.append_assoc, List.singleton_append]
    exact ih ht (c :: acc)

theorem separaTokens_dois_tokens (mt ds : List Char)
    (hmt : mt ≠ []) (hds : ds ≠ [])
    (h1 : ∀ c ∈ mt, separadorJs c = false)
    (h2 : ∀ c ∈ ds, separadorJs c = false) :
    separaTokens (mt ++ '/' :: ds) = [mt, ds] := by
  unfold separaTokens
  rw [separaTokensAux_sem_separador mt h1 [] ('/' :: ds)]
  rw [List.append_nil]
  have hrev : mt.reverse ≠ [] := by
    intro h
    exact hmt (by simpa using congrArg List.reverse h)
  simp only [separaTokensAux, show separadorJs '/' = true from rfl, if_true,
    hrev, if_neg hrev, List.reverse_reverse]
  have := separaTokensAux_sem_separador ds h2 [] []
  rw [List.append_nil] at this
  rw [this, List.append_nil]
  have hrevds : ds.reverse ≠ [] := by
    intro h
    exact hds (by simpa using congrArg List.reverse h)
  simp [separaTokensAux, hrevds]

theorem diasNoMes_igual_spec (mes ano : Nat) :
    diasNoMes mes ano = ultimoDiaSpec mes ano := by
  unfold diasNoMes ultimoDiaSpec bissexto
  rfl

/-- C6: for every input `<month token>/<four digit year>` whose month
token resolves to a month `1..12` (covering both `MonthName/YYYY` and
`MM/YYYY`), the interpreter returns that month and year, the token
`MM-YYYY` with zero-padded month, and the display
`MM/YYYY (01/MM a DD/MM)` whose last day `DD` is the correct (leap-aware)
last calendar day of the month, zero-padded, with the month appearing
zero-padded twice in the range. -/
theorem c6_periodo_bem_formado (mt : List Char) (m : Nat) (ds : List Char)
    (hmt : mt ≠ [])
    (hsep : ∀ c ∈ mt, separadorJs c = false)
    (hm : detectaMes mt = some m)
    (hm1 : 1 ≤ m) (hm12 : m ≤ 12)
    (hlen : ds.length = 4)
    (hdig : ∀ c ∈ ds, digitoJs c = true)
    (hval : 1000 ≤ parseDecimal ds) :
    interpretarPeriodo (String.mk (mt ++ '/' :: ds)) =
      { mes := some m, ano := some (parseDecimal ds),
        textoFormatado := String.mk
          (pad2 m ++ '/' :: stringDeNat (parseDecimal ds) ++ " (01/".data ++
            pad2 m ++ " a ".data ++ pad2 (ultimoDiaSpec m (parseDecimal ds)) ++
            '/' :: pad2 m ++ [')']),
        stringSanitizada := String.mk (pad2 m ++ '-' :: stringDeNat (parseDecimal ds)) } := by
  have hds : ds ≠ [] := by
    intro h
    rw [h] at hlen
    simp at hlen
  have hdsep : ∀ c ∈ ds, separadorJs c = false :=
    fun c hc => separador_falso_de_digito c (hdig c hc)
  have hneq : String.mk (mt ++ '/' :: ds) ≠ "" := by
    intro h
    have hd : mt ++ '/' :: ds = ([] : List Char) := congrArg String.data h
    simp at hd
  have hesp : ∀ c ∈ mt ++ '/' :: ds, espacoJs c = false := by
    intro c hc
    rcases List.mem_append.mp hc with hc | hc
    · exact espaco_falso_de_separador_falso c (hsep c hc)
    · rcases List.mem_cons.mp hc with hc | hc
      · rw [hc]; rfl
      · exact espaco_falso_de_separador_falso c (hdsep c hc)
  unfold interpretarPeriodo
  rw [if_neg hneq]
  show interpretaNucleo (trimJs (mt ++ '/' :: ds)) = _
  rw [trim_sem_espaco _ hesp]
  unfold interpretaNucleo interpretaDeteccao
  rw [separaTokens_dois_tokens mt ds hmt hds hsep hdsep]
  show (match (detectaMes mt, detectaAno ds) with
    | (some m, some a) =>
      if 1 ≤ m ∧ m ≤ 12 then periodoResolvido m a
      else periodoFallback (mt ++ '/' :: ds)
    | _ => periodoFallback (mt ++ '/' :: ds)) = _
  have hano : detectaAno ds = some (parseDecimal ds) := by
    unfold detectaAno
    rw [if_pos ⟨hlen, List.all_eq_true.mpr hdig⟩]
  rw [hm, hano]
  show (if 1 ≤ m ∧ m ≤ 12 then periodoResolvido m (parseDecimal ds)
    else periodoFallback (mt ++ '/' :: ds)) = _
  rw [if_pos ⟨hm1, hm12⟩]
  unfold periodoResolvido ultimoDiaJs
  rw [if_neg (by omega : ¬ parseDecimal ds ≤ 99), diasNoMes_igual_spec]

/-- Witness for C6 at February of a leap and of a common year: the last
day is 29 in 2024 and 28 in 2025, the token is `MM-YYYY`, and the month
appears zero-padded twice in the range. -/
theorem c6_testemunha :
    interpretarPeriodo "02/2024" =
      { mes := some 2, ano := some 2024,
        textoFormatado := "02/2024 (01/02 a 29/02)",
        stringSanitizada := "02-2024" } ∧
    interpretarPeriodo "02/2025" =
      { mes := some 2, ano := some 2025,
        textoFormatado := "02/2025 (01/02 a 28/02)",
        stringSanitizada := "02-2025" } := by
  constructor
  · exact c6_periodo_bem_formado ['0', '2'] 2 ['2', '0', '2', '4']
      (by decide) (by decide) (by decide) (by decide) (by decide)
      (by decide) (by decide) (by decide)
  · exact c6_periodo_bem_formado ['0', '2'] 2 ['2', '0', '2', '5']
      (by decide) (by decide) (by decide) (by decide) (by decide)
      (by decide) (by decide) (by decide)

end Recibos
